import Mathlib

/-!
# UART panel protocol: serial command encoding and failure recovery

A shallow embedding of `c-version/src/uart_interface.c` (with the constants of
`c-version/include/uart_interface.h`).

* The file-scope variables `uart_fd`, `error_counter`, the function-local static
  `current_display` and the two label texts form the record `State`.
* Every system call (`open`, `close`, `read`, `write`) is appended to the ghost
  field `State.trace`; the value the call returns is an argument of the embedded
  function, so that every I/O outcome can be quantified over.
* Bytes are natural numbers (`'\n'` is 10, `'\r'` is 13, NUL is 0).
* C `int` values are modelled by `Int`.  `error_counter` and `current_display`
  never leave `0..3` and `0..1` on states reached from the initial one, so no
  increment overflows there.  A statement that increments a counter taken from
  an arbitrary state assumes it lies in `INT_MIN .. INT_MAX - 1`, where the
  unbounded sum is the C sum.
* `printf` diagnostics and the termios configuration of a freshly opened
  descriptor do not touch any modelled variable and are left out.
-/

namespace Uart

/-! ## Constants (`uart_interface.h`) -/

/-- `#define KEY_PRESS_DURATION "1000"` -/
def KEY_PRESS_DURATION : String := "1000"

/-- `#define MAX_ERRORS 3` -/
def MAX_ERRORS : Int := 3

/-- Largest value of a C `int` (32 bits). -/
def INT_MAX : Int := 2147483647

/-- Smallest value of a C `int` (32 bits). -/
def INT_MIN : Int := -2147483648

/-! ## Bytes, `snprintf`, `strlen`, `strtok` -/

/-- The bytes of an ASCII string literal. -/
def bytes_of (s : String) : List Nat := s.toList.map Char.toNat

/-- Output of the `%d` conversion for an `int`. -/
def fmt_d (n : Int) : List Nat :=
  if n < 0 then 45 :: (Nat.toDigits 10 n.natAbs).map Char.toNat
  else (Nat.toDigits 10 n.toNat).map Char.toNat

/-- `snprintf(buf, size, ...)`: the formatted output `out` is cut to `size - 1`
bytes and NUL-terminated; the result is the written part of the buffer. -/
def snprintf (size : Nat) (out : List Nat) : List Nat :=
  out.take (size - 1) ++ [0]

/-- `strlen`: number of bytes before the first NUL. -/
def strlen (buf : List Nat) : Nat :=
  (buf.takeWhile (fun c => c ≠ 0)).length

/-- `strtok` on the memory starting at the current position (`s`, which ends
with the buffer's NUL terminator; the end of the list reads as NUL).  Returns
the token (`none` for `NULL`) and the memory at the saved position used by the
following `strtok(NULL, ...)` call.  Leading delimiters are skipped; at NUL
there is no token; otherwise the token runs up to the next delimiter or NUL,
and a delimiter ending the token is overwritten by NUL and stepped over. -/
def strtok (s delim : List Nat) : Option (List Nat) × List Nat :=
  let p := s.dropWhile (fun c => c ≠ 0 && delim.contains c)
  if p.headD 0 = 0 then (none, p)
  else
    let tok := p.takeWhile (fun c => c ≠ 0 && !delim.contains c)
    let e := p.dropWhile (fun c => c ≠ 0 && !delim.contains c)
    if e.headD 0 = 0 then (some tok, e) else (some tok, e.tail)

/-! ## State and system-call trace -/

/-- One system call together with the value it returned. -/
inductive Event where
  | sys_open (ret : Int)
  | sys_close (fd : Int)
  | sys_write (fd : Int) (bytes : List Nat) (ret : Int)
  | sys_read (fd : Int) (ret : Int)
  deriving DecidableEq, Repr

/-- The mutable variables of `uart_interface.c` and the ghost trace. -/
structure State where
  uart_fd : Int
  error_counter : Int
  current_display : Int
  display_label_upper : List Nat
  display_label_lower : List Nat
  trace : List Event
  deriving DecidableEq, Repr

/-! ## The functions of `uart_interface.c` -/

/-- `init_uart`; `o` is the value returned by `open("/dev/serial0", O_RDWR)`. -/
def init_uart (s : State) (o : Int) : State :=
  { s with uart_fd := o, trace := s.trace ++ [Event.sys_open o] }

/-- `send_display_command(n)`; `w` is the value returned by `write`, `o` the
value returned by `open` should the recovery branch run. -/
def send_display_command (s : State) (n : Int) (w o : Int) : State :=
  if s.uart_fd < 0 then s
  else
    let cmd := snprintf 32 (bytes_of "DISP " ++ fmt_d n ++ bytes_of "\r")
    let s1 := { s with
      trace := s.trace ++ [Event.sys_write s.uart_fd (cmd.take (strlen cmd)) w] }
    if w < 0 then
      let s2 := { s1 with error_counter := s1.error_counter + 1 }
      if s2.error_counter ≥ MAX_ERRORS then
        let s3 := { s2 with trace := s2.trace ++ [Event.sys_close s2.uart_fd] }
        let s4 := init_uart s3 o
        { s4 with error_counter := 0 }
      else s2
    else s1

/-- `send_key_command(key_number)`; `w` is the value returned by `write`, `o`
the value returned by `open` should the recovery branch run. -/
def send_key_command (s : State) (key_number : Int) (w o : Int) : State :=
  if s.uart_fd < 0 then s
  else
    let cmd := snprintf 32
      (bytes_of "KEY " ++ fmt_d key_number ++ bytes_of " " ++
        bytes_of KEY_PRESS_DURATION ++ bytes_of "\r")
    let s1 := { s with
      trace := s.trace ++ [Event.sys_write s.uart_fd (cmd.take (strlen cmd)) w] }
    if w < 0 then
      let s2 := { s1 with error_counter := s1.error_counter + 1 }
      if s2.error_counter ≥ MAX_ERRORS then
        let s3 := { s2 with trace := s2.trace ++ [Event.sys_close s2.uart_fd] }
        let s4 := init_uart s3 o
        { s4 with error_counter := 0 }
      else s2
    else s1

/-- `periodic_display_update`; `bytes_read` is the value returned by
`read(uart_fd, buffer, sizeof(buffer) - 1)` and `data` the bytes it stored in
`buffer` (for a real `read`, `bytes_read ≤ 255` and `data` holds `bytes_read`
bytes), `o1` the value returned by `open` should the read-side recovery run,
`w` and `o2` the outcomes handed to the closing `send_display_command`. -/
def periodic_display_update (s : State) (bytes_read : Int) (data : List Nat)
    (o1 w o2 : Int) : State :=
  if s.uart_fd < 0 then s
  else
    let s1 := { s with trace := s.trace ++ [Event.sys_read s.uart_fd bytes_read] }
    let s2 :=
      if bytes_read > 0 then
        let buffer := data.take bytes_read.toNat ++ [0]
        let r1 := strtok buffer (bytes_of "\n")
        let r2 := strtok r1.2 (bytes_of "\n")
        let upper_text := r1.1
        let lower_text := r2.1
        let sa := match upper_text with
          | some t => { s1 with display_label_upper := t }
          | none => s1
        let sb := match lower_text with
          | some t => { sa with display_label_lower := t }
          | none => sa
        { sb with error_counter := 0 }
      else
        let sa := { s1 with error_counter := s1.error_counter + 1 }
        if sa.error_counter ≥ MAX_ERRORS then
          let sb := { sa with
            display_label_upper := bytes_of "ERROR: No Response"
            display_label_lower := bytes_of "Check Connection" }
          let sc := { sb with trace := sb.trace ++ [Event.sys_close sb.uart_fd] }
          let sd := init_uart sc o1
          { sd with error_counter := 0 }
        else sa
    let s3 := { s2 with current_display := Int.tmod (s2.current_display + 1) 2 }
    send_display_command s3 s3.current_display w o2

/-! ## Executions -/

/-- One call of an entry point, with the outcomes of the system calls it may
make. -/
inductive Op where
  | key (key_number w o : Int)
  | disp (n w o : Int)
  | tick (bytes_read : Int) (data : List Nat) (o1 w o2 : Int)
  deriving DecidableEq, Repr

/-- Runs one entry point. -/
def step (s : State) : Op → State
  | Op.key key_number w o => send_key_command s key_number w o
  | Op.disp n w o => send_display_command s n w o
  | Op.tick bytes_read data o1 w o2 => periodic_display_update s bytes_read data o1 w o2

/-- Runs the calls of `ops` one after the other (single-threaded scheduler). -/
def run (s : State) (ops : List Op) : State := ops.foldl step s

/-- The byte strings handed to `write`, in order. -/
def writes_of (t : List Event) : List (List Nat) :=
  t.filterMap (fun e => match e with
    | Event.sys_write _ bytes _ => some bytes
    | _ => none)

/-- The bytes `send_key_command` hands to `write`: `cmd` up to `strlen(cmd)`. -/
def key_bytes (key_number : Int) : List Nat :=
  let cmd := snprintf 32
    (bytes_of "KEY " ++ fmt_d key_number ++ bytes_of " " ++
      bytes_of KEY_PRESS_DURATION ++ bytes_of "\r")
  cmd.take (strlen cmd)

/-- The bytes `send_display_command` hands to `write`: `cmd` up to `strlen(cmd)`. -/
def disp_bytes (n : Int) : List Nat :=
  let cmd := snprintf 32 (bytes_of "DISP " ++ fmt_d n ++ bytes_of "\r")
  cmd.take (strlen cmd)

/-- The upper label after the data branch of `periodic_display_update` ran on
`buffer`: the first `strtok` token when there is one, the old text otherwise. -/
def decoded_upper (old buffer : List Nat) : List Nat :=
  match (strtok buffer (bytes_of "\n")).1 with
  | some t => t
  | none => old

/-- The lower label after the data branch of `periodic_display_update` ran on
`buffer`: the second `strtok` token when there is one, the old text otherwise. -/
def decoded_lower (old buffer : List Nat) : List Nat :=
  match (strtok (strtok buffer (bytes_of "\n")).2 (bytes_of "\n")).1 with
  | some t => t
  | none => old

/-- Position of a monitor that reads a system-call trace from left to right:
`counting c` after `c` counted failures since the last reset, `closing` when
the close of a recovery is due next, `opening` when its open is due next,
`violated` once the trace has broken the discipline. -/
inductive Phase where
  | counting (c : Nat)
  | closing
  | opening
  | violated
  deriving DecidableEq, Repr

/-- Follows the spec's words ("resets to 0 on any successful write or read;
reaches exactly 3 consecutive failures before a reopen is triggered, never
sooner, never later"): a failed write adds one, and so does a read that fails
or brings no byte (step 4 of the receive path); a successful write or a read
that brings data resets to 0; the third consecutive failure must be followed at
once by close and open; close or open anywhere else breaks the discipline. -/
def spec_monitor : Phase → Event → Phase
  | Phase.counting c, Event.sys_write _ _ ret =>
    if ret < 0 then (if c + 1 = 3 then Phase.closing else Phase.counting (c + 1))
    else Phase.counting 0
  | Phase.counting c, Event.sys_read _ ret =>
    if ret > 0 then Phase.counting 0
    else (if c + 1 = 3 then Phase.closing else Phase.counting (c + 1))
  | Phase.closing, Event.sys_close _ => Phase.opening
  | Phase.opening, Event.sys_open _ => Phase.counting 0
  | _, _ => Phase.violated

/-- The discipline the code keeps: as `spec_monitor`, except that a successful
write leaves the count as it is (only a read that brings data, or a recovery,
resets it). -/
def counted_monitor : Phase → Event → Phase
  | Phase.counting c, Event.sys_write _ _ ret =>
    if ret < 0 then (if c + 1 = 3 then Phase.closing else Phase.counting (c + 1))
    else Phase.counting c
  | Phase.counting c, Event.sys_read _ ret =>
    if ret > 0 then Phase.counting 0
    else (if c + 1 = 3 then Phase.closing else Phase.counting (c + 1))
  | Phase.closing, Event.sys_close _ => Phase.opening
  | Phase.opening, Event.sys_open _ => Phase.counting 0
  | _, _ => Phase.violated

/-- The trace of `s` is accepted by `counted_monitor` and `error_counter` is
the monitor's count, below `MAX_ERRORS`. -/
def Counted (s : State) : Prop :=
  ∃ c : Nat, c < 3 ∧ s.trace.foldl counted_monitor (Phase.counting 0) = Phase.counting c ∧
    s.error_counter = c

/-- Follows the spec's words ("treat the buffer as newline-delimited text"):
the lines of `buf`, each ended by a newline (10), together with the
unterminated rest after the last newline when that rest is not empty. -/
def spec_lines : List Nat → List (List Nat)
  | [] => []
  | c :: rest =>
    if c = 10 then [] :: spec_lines rest
    else
      match spec_lines rest with
      | [] => [[c]]
      | l :: ls => (c :: l) :: ls

/-- Follows the spec's words: "the first line becomes the upper status text,
the second line (if present) becomes the lower status text", a missing line
leaving the text as it was.  Returns the pair (upper, lower). -/
def spec_decode (upper lower buf : List Nat) : List Nat × List Nat :=
  match spec_lines buf with
  | [] => (upper, lower)
  | [l1] => (l1, lower)
  | l1 :: l2 :: _ => (l1, l2)

/-- A state right after a successful `init_uart` at start-up: descriptor 3,
no failure counted, slot 0, empty trace. -/
def s_open : State :=
  { uart_fd := 3, error_counter := 0, current_display := 0,
    display_label_upper := bytes_of "Text", display_label_lower := bytes_of "Text",
    trace := [] }

/-- A state whose link is closed, as left by a read-side recovery whose `open`
returned -1: counter 0, slot 1, the error status on both labels. -/
def s_closed : State :=
  { uart_fd := -1, error_counter := 0, current_display := 1,
    display_label_upper := bytes_of "ERROR: No Response",
    display_label_lower := bytes_of "Check Connection",
    trace := [] }

/-! ## Helper lemmas -/

theorem writes_of_append (a b : List Event) :
    writes_of (a ++ b) = writes_of a ++ writes_of b := by
  simp [writes_of, List.filterMap_append]

theorem send_key_command_closed (s : State) (h : s.uart_fd < 0) (k w o : Int) :
    send_key_command s k w o = s := by
  simp [send_key_command, h]

theorem send_display_command_closed (s : State) (h : s.uart_fd < 0) (n w o : Int) :
    send_display_command s n w o = s := by
  simp [send_display_command, h]

theorem periodic_display_update_closed (s : State) (h : s.uart_fd < 0)
    (r : Int) (data : List Nat) (o1 w o2 : Int) :
    periodic_display_update s r data o1 w o2 = s := by
  simp [periodic_display_update, h]

theorem step_closed (s : State) (h : s.uart_fd < 0) (op : Op) : step s op = s := by
  cases op with
  | key k w o => exact send_key_command_closed s h k w o
  | disp n w o => exact send_display_command_closed s h n w o
  | tick r data o1 w o2 => exact periodic_display_update_closed s h r data o1 w o2

theorem run_closed (s : State) (h : s.uart_fd < 0) (ops : List Op) : run s ops = s := by
  induction ops with
  | nil => rfl
  | cons op rest ih =>
    show run (step s op) rest = s
    rw [step_closed s h op]
    exact ih

theorem send_display_command_forgets_trace (s : State) (t : List Event) (n w o : Int) :
    { send_display_command { s with trace := t } n w o with trace := [] } =
      { send_display_command s n w o with trace := [] } := by
  simp only [send_display_command, init_uart]
  split_ifs <;> rfl

theorem tmod_toggle (c : Int) (hc : c = 0 ∨ c = 1) : Int.tmod (c + 1) 2 = 1 - c := by
  rcases hc with hc | hc <;> subst hc <;> rfl

theorem key_bytes_digit (k : Int) (h0 : 0 ≤ k) (h7 : k ≤ 7) :
    key_bytes k = bytes_of "KEY " ++ [48 + k.toNat] ++ bytes_of " 1000\r" := by
  interval_cases k <;> rfl

theorem disp_bytes_digit (n : Int) (h : n = 0 ∨ n = 1) :
    disp_bytes n = bytes_of "DISP " ++ [48 + n.toNat] ++ bytes_of "\r" := by
  rcases h with h | h <;> subst h <;> rfl

theorem send_key_command_open (s : State) (h : 0 ≤ s.uart_fd) (k w o : Int) :
    send_key_command s k w o =
      if w < 0 then
        if s.error_counter + 1 ≥ MAX_ERRORS then
          { s with uart_fd := o, error_counter := 0,
                   trace := s.trace ++ [Event.sys_write s.uart_fd (key_bytes k) w,
                     Event.sys_close s.uart_fd, Event.sys_open o] }
        else
          { s with error_counter := s.error_counter + 1,
                   trace := s.trace ++ [Event.sys_write s.uart_fd (key_bytes k) w] }
      else { s with trace := s.trace ++ [Event.sys_write s.uart_fd (key_bytes k) w] } := by
  have h1 : ¬ s.uart_fd < 0 := not_lt.mpr h
  simp only [send_key_command, h1, if_false, init_uart, key_bytes]
  split_ifs <;> simp

theorem send_display_command_open (s : State) (h : 0 ≤ s.uart_fd) (n w o : Int) :
    send_display_command s n w o =
      if w < 0 then
        if s.error_counter + 1 ≥ MAX_ERRORS then
          { s with uart_fd := o, error_counter := 0,
                   trace := s.trace ++ [Event.sys_write s.uart_fd (disp_bytes n) w,
                     Event.sys_close s.uart_fd, Event.sys_open o] }
        else
          { s with error_counter := s.error_counter + 1,
                   trace := s.trace ++ [Event.sys_write s.uart_fd (disp_bytes n) w] }
      else { s with trace := s.trace ++ [Event.sys_write s.uart_fd (disp_bytes n) w] } := by
  have h1 : ¬ s.uart_fd < 0 := not_lt.mpr h
  simp only [send_display_command, h1, if_false, init_uart, disp_bytes]
  split_ifs <;> simp

theorem send_display_command_labels (s : State) (n w o : Int) :
    (send_display_command s n w o).display_label_upper = s.display_label_upper ∧
    (send_display_command s n w o).display_label_lower = s.display_label_lower ∧
    (send_display_command s n w o).current_display = s.current_display := by
  simp only [send_display_command, init_uart]
  split_ifs <;> simp

theorem periodic_display_update_nodata (s : State) (h : 0 ≤ s.uart_fd) (r : Int)
    (hr : r ≤ 0) (data : List Nat) (o1 w o2 : Int) :
    periodic_display_update s r data o1 w o2 =
      if s.error_counter + 1 ≥ MAX_ERRORS then
        send_display_command
          { uart_fd := o1, error_counter := 0,
            current_display := Int.tmod (s.current_display + 1) 2,
            display_label_upper := bytes_of "ERROR: No Response",
            display_label_lower := bytes_of "Check Connection",
            trace := s.trace ++ [Event.sys_read s.uart_fd r, Event.sys_close s.uart_fd,
              Event.sys_open o1] }
          (Int.tmod (s.current_display + 1) 2) w o2
      else
        send_display_command
          { s with error_counter := s.error_counter + 1,
                   current_display := Int.tmod (s.current_display + 1) 2,
                   trace := s.trace ++ [Event.sys_read s.uart_fd r] }
          (Int.tmod (s.current_display + 1) 2) w o2 := by
  have h1 : ¬ s.uart_fd < 0 := not_lt.mpr h
  have h2 : ¬ r > 0 := not_lt.mpr hr
  simp only [periodic_display_update, h1, h2, if_false, init_uart]
  split_ifs <;> simp

theorem periodic_display_update_data (s : State) (h : 0 ≤ s.uart_fd) (r : Int)
    (hr : 0 < r) (data : List Nat) (o1 w o2 : Int) :
    periodic_display_update s r data o1 w o2 =
      send_display_command
        { s with error_counter := 0,
                 current_display := Int.tmod (s.current_display + 1) 2,
                 display_label_upper :=
                   decoded_upper s.display_label_upper (data.take r.toNat ++ [0]),
                 display_label_lower :=
                   decoded_lower s.display_label_lower (data.take r.toNat ++ [0]),
                 trace := s.trace ++ [Event.sys_read s.uart_fd r] }
        (Int.tmod (s.current_display + 1) 2) w o2 := by
  have h1 : ¬ s.uart_fd < 0 := not_lt.mpr h
  have h2 : r > 0 := hr
  simp only [periodic_display_update, h1, h2, if_false, if_true, decoded_upper, decoded_lower]
  generalize strtok (List.take r.toNat data ++ [0]) (bytes_of "\n") = A
  generalize (strtok A.2 (bytes_of "\n")).1 = B
  obtain ⟨a, rest⟩ := A
  cases a <;> cases B <;> rfl

theorem counted_send_display_command (s : State) (hs : Counted s) (n w o : Int) :
    Counted (send_display_command s n w o) := by
  by_cases hfd : s.uart_fd < 0
  · rw [send_display_command_closed s hfd]
    exact hs
  · obtain ⟨c, hc3, hfold, hcnt⟩ := hs
    rw [send_display_command_open s (not_lt.mp hfd)]
    split_ifs with hw hge
    · have hc2 : c = 2 := by
        simp only [MAX_ERRORS, hcnt] at hge
        omega
      subst hc2
      exact ⟨0, by decide, by simp [List.foldl_append, hfold, counted_monitor, hw], rfl⟩
    · have hlt : c + 1 < 3 := by
        simp only [MAX_ERRORS, hcnt] at hge
        omega
      refine ⟨c + 1, hlt, ?_, ?_⟩
      · have hne : ¬ c + 1 = 3 := by omega
        simp [List.foldl_append, hfold, counted_monitor, hw, hne]
      · simp [hcnt]
    · exact ⟨c, hc3, by simp [List.foldl_append, hfold, counted_monitor, hw], hcnt⟩

theorem counted_send_key_command (s : State) (hs : Counted s) (k w o : Int) :
    Counted (send_key_command s k w o) := by
  by_cases hfd : s.uart_fd < 0
  · rw [send_key_command_closed s hfd]
    exact hs
  · obtain ⟨c, hc3, hfold, hcnt⟩ := hs
    rw [send_key_command_open s (not_lt.mp hfd)]
    split_ifs with hw hge
    · have hc2 : c = 2 := by
        simp only [MAX_ERRORS, hcnt] at hge
        omega
      subst hc2
      exact ⟨0, by decide, by simp [List.foldl_append, hfold, counted_monitor, hw], rfl⟩
    · have hlt : c + 1 < 3 := by
        simp only [MAX_ERRORS, hcnt] at hge
        omega
      refine ⟨c + 1, hlt, ?_, ?_⟩
      · have hne : ¬ c + 1 = 3 := by omega
        simp [List.foldl_append, hfold, counted_monitor, hw, hne]
      · simp [hcnt]
    · exact ⟨c, hc3, by simp [List.foldl_append, hfold, counted_monitor, hw], hcnt⟩

theorem counted_periodic_display_update (s : State) (hs : Counted s) (r : Int)
    (data : List Nat) (o1 w o2 : Int) :
    Counted (periodic_display_update s r data o1 w o2) := by
  by_cases hfd : s.uart_fd < 0
  · rw [periodic_display_update_closed s hfd]
    exact hs
  · obtain ⟨c, hc3, hfold, hcnt⟩ := hs
    by_cases hr : r ≤ 0
    · have hr2 : ¬ r > 0 := not_lt.mpr hr
      rw [periodic_display_update_nodata s (not_lt.mp hfd) r hr]
      split_ifs with hge
      · have hc2 : c = 2 := by
          simp only [MAX_ERRORS, hcnt] at hge
          omega
        subst hc2
        apply counted_send_display_command
        exact ⟨0, by decide, by simp [List.foldl_append, hfold, counted_monitor, hr2], rfl⟩
      · have hlt : c + 1 < 3 := by
          simp only [MAX_ERRORS, hcnt] at hge
          omega
        apply counted_send_display_command
        refine ⟨c + 1, hlt, ?_, ?_⟩
        · have hne : ¬ c + 1 = 3 := by omega
          simp [List.foldl_append, hfold, counted_monitor, hr2, hne]
        · simp [hcnt]
    · have hr2 : r > 0 := not_le.mp hr
      rw [periodic_display_update_data s (not_lt.mp hfd) r hr2]
      apply counted_send_display_command
      exact ⟨0, by decide, by simp [List.foldl_append, hfold, counted_monitor, hr2], rfl⟩

theorem counted_step (s : State) (hs : Counted s) (op : Op) : Counted (step s op) := by
  cases op with
  | key k w o => exact counted_send_key_command s hs k w o
  | disp n w o => exact counted_send_display_command s hs n w o
  | tick r data o1 w o2 => exact counted_periodic_display_update s hs r data o1 w o2

theorem counted_run (ops : List Op) : ∀ s : State, Counted s → Counted (run s ops) := by
  induction ops with
  | nil => intro s hs; exact hs
  | cons op rest ih =>
    intro s hs
    show Counted (run (step s op) rest)
    exact ih (step s op) (counted_step s hs op)

theorem nl_bytes : bytes_of "\n" = [10] := rfl

theorem token_scan (data : List Nat) (hnul : ∀ c ∈ data, c ≠ 0) :
    (data ++ [0]).takeWhile (fun c => c ≠ 0 && !(List.contains [10] c)) =
      data.takeWhile (fun c => c ≠ 10) ∧
    (data ++ [0]).dropWhile (fun c => c ≠ 0 && !(List.contains [10] c)) =
      data.dropWhile (fun c => c ≠ 10) ++ [0] := by
  induction data with
  | nil => simp
  | cons a rest ih =>
    have ha : a ≠ 0 := hnul a (List.mem_cons_self _ _)
    have ih2 := ih (fun c hc => hnul c (List.mem_cons_of_mem _ hc))
    by_cases h10 : a = 10
    · subst h10
      simp [List.takeWhile_cons, List.dropWhile_cons]
    · simp [List.takeWhile_cons, List.dropWhile_cons, ha, h10] at ih2 ⊢
      exact ih2

theorem strtok_nul (rest : List Nat) :
    strtok (0 :: rest) (bytes_of "\n") = (none, 0 :: rest) := by
  simp [strtok]

theorem strtok_first (data : List Nat) (hnul : ∀ c ∈ data, c ≠ 0)
    (hne : data.takeWhile (fun c => c ≠ 10) ≠ []) :
    strtok (data ++ [0]) (bytes_of "\n") =
      (some (data.takeWhile (fun c => c ≠ 10)),
       (data.dropWhile (fun c => c ≠ 10)).drop 1 ++ [0]) := by
  cases data with
  | nil => exact absurd rfl hne
  | cons a rest =>
    have ha : a ≠ 0 := hnul a (List.mem_cons_self _ _)
    have h10 : a ≠ 10 := by
      intro h
      apply hne
      simp [h]
    have hskip : ((a :: rest) ++ [0]).dropWhile (fun c => c ≠ 0 && [10].contains c) =
        (a :: rest) ++ [0] := by
      simp [List.dropWhile_cons, h10]
    obtain ⟨htw, hdw⟩ := token_scan (a :: rest) hnul
    unfold strtok
    simp only [nl_bytes, hskip, htw, hdw]
    have hhead : ((a :: rest) ++ [0]).headD 0 ≠ 0 := by simpa using ha
    rw [if_neg hhead]
    cases hd : (a :: rest).dropWhile (fun c => c ≠ 10) with
    | nil => simp
    | cons b r =>
      have hb : b ≠ 0 := by
        apply hnul
        have hsub := (List.dropWhile_sublist (fun c => decide (c ≠ 10)) (l := a :: rest)).subset
        apply hsub
        rw [hd]
        exact List.mem_cons_self _ _
      simp [hb]

theorem spec_lines_cons (data : List Nat) (h : data ≠ []) :
    spec_lines data = data.takeWhile (fun c => c ≠ 10) ::
      spec_lines ((data.dropWhile (fun c => c ≠ 10)).drop 1) := by
  induction data with
  | nil => exact absurd rfl h
  | cons a rest ih =>
    by_cases h10 : a = 10
    · subst h10
      simp [spec_lines]
    · cases rest with
      | nil => simp [spec_lines, h10]
      | cons b r =>
        have ih2 := ih (List.cons_ne_nil b r)
        rw [spec_lines, if_neg h10, ih2]
        simp [List.takeWhile_cons, List.dropWhile_cons, h10]

theorem spec_lines_line (l rest : List Nat) (hl : ∀ c ∈ l, c ≠ 10) :
    spec_lines (l ++ 10 :: rest) = l :: spec_lines rest := by
  induction l with
  | nil => simp [spec_lines]
  | cons a l2 ih =>
    have h10 : a ≠ 10 := hl a (List.mem_cons_self _ _)
    have ih2 := ih (fun c hc => hl c (List.mem_cons_of_mem _ hc))
    rw [List.cons_append, spec_lines, if_neg h10, ih2]

theorem decoded_eq_spec (data upper lower : List Nat) (hpos : data ≠ [])
    (hnul : ∀ c ∈ data, c ≠ 0) (hne : ∀ l ∈ (spec_lines data).take 2, l ≠ []) :
    (decoded_upper upper (data ++ [0]), decoded_lower lower (data ++ [0])) =
      spec_decode upper lower data := by
  rw [spec_lines_cons data hpos] at hne
  have h1 : data.takeWhile (fun c => c ≠ 10) ≠ [] := hne _ (by simp)
  have hfirst := strtok_first data hnul h1
  unfold decoded_upper decoded_lower spec_decode
  rw [spec_lines_cons data hpos, hfirst]
  cases hd2 : (data.dropWhile (fun c => c ≠ 10)).drop 1 with
  | nil => simp [strtok_nul, spec_lines]
  | cons b r =>
    have hpos2 : b :: r ≠ [] := List.cons_ne_nil b r
    have hnul2 : ∀ c ∈ b :: r, c ≠ 0 := by
      intro c hc
      apply hnul
      rw [← hd2] at hc
      exact (List.dropWhile_sublist (fun c => decide (c ≠ 10))).subset (List.mem_of_mem_drop hc)
    rw [hd2, spec_lines_cons (b :: r) hpos2] at hne
    have h2 : (b :: r).takeWhile (fun c => c ≠ 10) ≠ [] := hne _ (by simp)
    rw [strtok_first (b :: r) hnul2 h2, spec_lines_cons (b :: r) hpos2]

theorem periodic_display_update_labels (s : State) (h : 0 ≤ s.uart_fd) (data : List Nat)
    (hpos : data ≠ []) (o1 w o2 : Int) :
    (periodic_display_update s data.length data o1 w o2).display_label_upper =
      decoded_upper s.display_label_upper (data ++ [0]) ∧
    (periodic_display_update s data.length data o1 w o2).display_label_lower =
      decoded_lower s.display_label_lower (data ++ [0]) := by
  have hr : (0 : Int) < data.length := by
    have := List.length_pos.mpr hpos
    omega
  rw [periodic_display_update_data s h _ hr, (send_display_command_labels _ _ _ _).1,
    (send_display_command_labels _ _ _ _).2.1]
  simp

/-! ## Claims -/

/-- C4: with the link closed (negative descriptor), `send_key_command`,
`send_display_command` and `periodic_display_update` return the state they
were given: nothing is appended to the system-call trace (no write, read,
close or open) and the failure counter, the descriptor and both label texts
are unchanged. -/
theorem closed_link_calls_are_noops (s : State) (h : s.uart_fd < 0)
    (key_number n w o bytes_read o1 o2 : Int) (data : List Nat) :
    send_key_command s key_number w o = s ∧
    send_display_command s n w o = s ∧
    periodic_display_update s bytes_read data o1 w o2 = s :=
  ⟨send_key_command_closed s h key_number w o,
   send_display_command_closed s h n w o,
   periodic_display_update_closed s h bytes_read data o1 w o2⟩

theorem closed_link_calls_are_noops_witness :
    s_closed.uart_fd < 0 ∧
    send_key_command s_closed 5 (-1) 4 = s_closed ∧
    send_display_command s_closed 1 (-1) 4 = s_closed ∧
    periodic_display_update s_closed 3 [65, 10, 66] 4 (-1) 4 = s_closed :=
  ⟨by decide, closed_link_calls_are_noops s_closed (by decide) 5 1 (-1) 4 3 4 4 [65, 10, 66]⟩

/-- C10: the closed-link state is absorbing.  From a state whose descriptor is
negative, every sequence of `send_key_command`, `send_display_command` and
`periodic_display_update` calls, whatever outcomes are offered to them, ends in
the very same state: the trace gains no event (so no open is attempted and no
command is written), the link stays closed, and the failure counter and both
label texts keep their values. -/
theorem closed_link_is_absorbing (s : State) (h : s.uart_fd < 0) (ops : List Op) :
    run s ops = s ∧ (run s ops).uart_fd < 0 ∧ (run s ops).trace = s.trace ∧
    (run s ops).error_counter = s.error_counter ∧
    (run s ops).display_label_upper = s.display_label_upper ∧
    (run s ops).display_label_lower = s.display_label_lower := by
  rw [run_closed s h ops]
  exact ⟨rfl, h, rfl, rfl, rfl, rfl⟩

theorem closed_link_is_absorbing_witness :
    s_closed.uart_fd < 0 ∧
    (run s_closed [Op.key 2 11 5, Op.tick 2 [65, 10] 5 7 5, Op.disp 0 (-1) 5] = s_closed ∧
     (run s_closed [Op.key 2 11 5, Op.tick 2 [65, 10] 5 7 5, Op.disp 0 (-1) 5]).uart_fd < 0 ∧
     (run s_closed [Op.key 2 11 5, Op.tick 2 [65, 10] 5 7 5, Op.disp 0 (-1) 5]).trace
        = s_closed.trace ∧
     (run s_closed [Op.key 2 11 5, Op.tick 2 [65, 10] 5 7 5, Op.disp 0 (-1) 5]).error_counter
        = s_closed.error_counter ∧
     (run s_closed [Op.key 2 11 5, Op.tick 2 [65, 10] 5 7 5, Op.disp 0 (-1) 5]).display_label_upper
        = s_closed.display_label_upper ∧
     (run s_closed [Op.key 2 11 5, Op.tick 2 [65, 10] 5 7 5, Op.disp 0 (-1) 5]).display_label_lower
        = s_closed.display_label_lower) :=
  ⟨by decide, closed_link_is_absorbing s_closed (by decide) _⟩

/-- C1: outbound wire format.  On an open link, for a key number in `0..7`
`send_key_command` hands `write` exactly the bytes `KEY `, the decimal digit of
the key, ` 1000` and a carriage return (no line feed, nothing cut by the
32-byte buffer), and for a slot in `0..1` `send_display_command` hands `write`
exactly `DISP `, the digit of the slot and a carriage return.  In both cases it
is the only write of the call. -/
theorem wire_format (s : State) (h : 0 ≤ s.uart_fd) (key_number slot w o : Int)
    (hk0 : 0 ≤ key_number) (hk7 : key_number ≤ 7) (hs : slot = 0 ∨ slot = 1) :
    writes_of (send_key_command s key_number w o).trace =
      writes_of s.trace ++ [bytes_of "KEY " ++ [48 + key_number.toNat] ++ bytes_of " 1000\r"] ∧
    writes_of (send_display_command s slot w o).trace =
      writes_of s.trace ++ [bytes_of "DISP " ++ [48 + slot.toNat] ++ bytes_of "\r"] := by
  rw [send_key_command_open s h, send_display_command_open s h,
    key_bytes_digit key_number hk0 hk7, disp_bytes_digit slot hs]
  constructor <;> split_ifs <;> simp [writes_of]

theorem wire_format_witness :
    (0 : Int) ≤ s_open.uart_fd ∧
    writes_of (send_key_command s_open 7 11 4).trace = [bytes_of "KEY 7 1000\r"] ∧
    writes_of (send_display_command s_open 1 7 4).trace = [bytes_of "DISP 1\r"] ∧
    writes_of (send_key_command s_open 0 (-1) 4).trace = [[75, 69, 89, 32, 48, 32, 49, 48, 48, 48, 13]] :=
  ⟨by decide,
   (wire_format s_open (by decide) 7 1 11 4 (by decide) (by decide) (Or.inr rfl)).1,
   (wire_format s_open (by decide) 7 1 7 4 (by decide) (by decide) (Or.inr rfl)).2,
   (wire_format s_open (by decide) 0 0 (-1) 4 (by decide) (by decide) (Or.inl rfl)).1⟩

/-- C2 fails as stated: after one failed and one successful key write on an
open link the failure counter is 1, not 0; a successful write never resets
it. -/
theorem write_success_reset_counterexample :
    ¬ (∀ (s : State) (k w o : Int), 0 ≤ s.uart_fd → 0 ≤ w →
        (send_key_command s k w o).error_counter = 0) := by
  intro hall
  have h := hall (send_key_command s_open 0 (-1) 4) 0 11 4 (by decide) (by decide)
  revert h
  decide

/-- C2 (amended): the failure counter is reset by a successful read only.  On
an open link a `send_key_command` or `send_display_command` whose write
succeeds leaves the counter as it was; a periodic cycle whose read returns
more than 0 bytes sets the counter to 0 before its display-select command is
sent, so the cycle ends with counter 0 when that write succeeds and with
counter 1 when that write fails. -/
theorem counter_after_success (s : State) (h : 0 ≤ s.uart_fd)
    (k n w o r o1 o2 wf : Int) (data : List Nat)
    (hw : 0 ≤ w) (hr : 0 < r) (hwf : wf < 0) :
    (send_key_command s k w o).error_counter = s.error_counter ∧
    (send_display_command s n w o).error_counter = s.error_counter ∧
    (periodic_display_update s r data o1 w o2).error_counter = 0 ∧
    (periodic_display_update s r data o1 wf o2).error_counter = 1 := by
  have hw1 : ¬ w < 0 := not_lt.mpr hw
  refine ⟨?_, ?_, ?_, ?_⟩
  · rw [send_key_command_open s h, if_neg hw1]
  · rw [send_display_command_open s h, if_neg hw1]
  · rw [periodic_display_update_data s h r hr, send_display_command_open, if_neg hw1]
    exact h
  · rw [periodic_display_update_data s h r hr, send_display_command_open, if_pos hwf]
    · simp [MAX_ERRORS]
    · exact h

theorem counter_after_success_witness :
    (0 : Int) ≤ (send_key_command s_open 0 (-1) 4).uart_fd ∧
    (send_key_command (send_key_command s_open 0 (-1) 4) 3 11 4).error_counter = 1 ∧
    (send_display_command (send_key_command s_open 0 (-1) 4) 1 11 4).error_counter = 1 ∧
    (periodic_display_update (send_key_command s_open 0 (-1) 4) 2 [65, 10] 4 11 4).error_counter
      = 0 ∧
    (periodic_display_update (send_key_command s_open 0 (-1) 4) 2 [65, 10] 4 (-1) 4).error_counter
      = 1 :=
  ⟨by decide,
   counter_after_success (send_key_command s_open 0 (-1) 4) (by decide) 3 1 11 4 2 4 4 (-1)
     [65, 10] (by decide) (by decide) (by decide)⟩

/-- C8: from an open link with no failure counted, three `send_key_command`
calls whose writes all fail.  Each call makes exactly one write attempt; the
first two make no close and no open and leave the counter at 1 and 2; the third
closes the old descriptor and makes exactly one open attempt, and the counter
is 0 afterwards whatever that open returns (`o3` is arbitrary). -/
theorem three_failed_key_writes (s s1 s2 s3 : State) (h : 0 ≤ s.uart_fd)
    (hc : s.error_counter = 0) (k1 k2 k3 w1 w2 w3 o1 o2 o3 : Int)
    (hw1 : w1 < 0) (hw2 : w2 < 0) (hw3 : w3 < 0)
    (h1 : s1 = send_key_command s k1 w1 o1)
    (h2 : s2 = send_key_command s1 k2 w2 o2)
    (h3 : s3 = send_key_command s2 k3 w3 o3) :
    s1.trace = s.trace ++ [Event.sys_write s.uart_fd (key_bytes k1) w1] ∧
    s1.error_counter = 1 ∧ s1.uart_fd = s.uart_fd ∧
    s2.trace = s1.trace ++ [Event.sys_write s.uart_fd (key_bytes k2) w2] ∧
    s2.error_counter = 2 ∧ s2.uart_fd = s.uart_fd ∧
    s3.trace = s2.trace ++ [Event.sys_write s.uart_fd (key_bytes k3) w3,
      Event.sys_close s.uart_fd, Event.sys_open o3] ∧
    s3.error_counter = 0 ∧ s3.uart_fd = o3 := by
  have e1 : s1 = { s with
      error_counter := 1
      trace := s.trace ++ [Event.sys_write s.uart_fd (key_bytes k1) w1] } := by
    rw [h1, send_key_command_open s h, if_pos hw1, hc]
    simp [MAX_ERRORS]
  have hfd1 : 0 ≤ s1.uart_fd := by rw [e1]; exact h
  have e2 : s2 = { s1 with
      error_counter := 2
      trace := s1.trace ++ [Event.sys_write s.uart_fd (key_bytes k2) w2] } := by
    rw [h2, send_key_command_open s1 hfd1, if_pos hw2]
    rw [e1]
    simp [MAX_ERRORS]
  have hfd2 : 0 ≤ s2.uart_fd := by rw [e2, e1]; exact h
  have e3 : s3 = { s2 with
      uart_fd := o3
      error_counter := 0
      trace := s2.trace ++ [Event.sys_write s.uart_fd (key_bytes k3) w3,
        Event.sys_close s.uart_fd, Event.sys_open o3] } := by
    rw [h3, send_key_command_open s2 hfd2, if_pos hw3]
    rw [e2, e1]
    simp [MAX_ERRORS]
  refine ⟨?_, ?_, ?_, ?_, ?_, ?_, ?_, ?_, ?_⟩
  · rw [e1]
  · rw [e1]
  · rw [e1]
  · rw [e2]
  · rw [e2]
  · rw [e2, e1]
  · rw [e3]
  · rw [e3]
  · rw [e3]

theorem three_failed_key_writes_witness :
    (0 : Int) ≤ s_open.uart_fd ∧ s_open.error_counter = 0 ∧
    (send_key_command (send_key_command (send_key_command s_open 1 (-1) 5) 1 (-1) 5) 1 (-1)
        (-1)).trace =
      (send_key_command (send_key_command s_open 1 (-1) 5) 1 (-1) 5).trace ++
        [Event.sys_write 3 (key_bytes 1) (-1), Event.sys_close 3, Event.sys_open (-1)] ∧
    (send_key_command (send_key_command (send_key_command s_open 1 (-1) 5) 1 (-1) 5) 1 (-1)
        (-1)).error_counter = 0 :=
  ⟨by decide, by decide,
   (three_failed_key_writes s_open _ _ _ (by decide) (by decide) 1 1 1 (-1) (-1) (-1) 5 5 (-1)
      (by decide) (by decide) (by decide) rfl rfl rfl).2.2.2.2.2.2.1,
   (three_failed_key_writes s_open _ _ _ (by decide) (by decide) 1 1 1 (-1) (-1) (-1) 5 5 (-1)
      (by decide) (by decide) (by decide) rfl rfl rfl).2.2.2.2.2.2.2.1⟩

/-- C6: from an open link with no failure counted, three periodic cycles whose
reads each return no bytes or fail (`r ≤ 0`) and whose display-select writes
succeed.  The first two cycles only read and write (no close, no open) and
leave the counter at 1 and 2; the third reads, closes the descriptor, makes
one open attempt and, when that open succeeds, sends its display-select
command on the new descriptor.  Afterwards the upper label reads
`ERROR: No Response`, the lower label `Check Connection`, and the counter
is 0. -/
theorem three_silent_cycles (s s1 s2 s3 : State) (h : 0 ≤ s.uart_fd)
    (hc : s.error_counter = 0)
    (r1 r2 r3 w1 w2 w3 oa1 ob1 oa2 ob2 o ob3 : Int) (d1 d2 d3 : List Nat)
    (hr1 : r1 ≤ 0) (hr2 : r2 ≤ 0) (hr3 : r3 ≤ 0)
    (hw1 : 0 ≤ w1) (hw2 : 0 ≤ w2) (hw3 : 0 ≤ w3)
    (h1 : s1 = periodic_display_update s r1 d1 oa1 w1 ob1)
    (h2 : s2 = periodic_display_update s1 r2 d2 oa2 w2 ob2)
    (h3 : s3 = periodic_display_update s2 r3 d3 o w3 ob3) :
    s1.trace = s.trace ++ [Event.sys_read s.uart_fd r1,
      Event.sys_write s.uart_fd (disp_bytes (Int.tmod (s.current_display + 1) 2)) w1] ∧
    s1.error_counter = 1 ∧
    s2.trace = s1.trace ++ [Event.sys_read s.uart_fd r2,
      Event.sys_write s.uart_fd (disp_bytes (Int.tmod (s1.current_display + 1) 2)) w2] ∧
    s2.error_counter = 2 ∧
    s3.trace = s2.trace ++
      [Event.sys_read s.uart_fd r3, Event.sys_close s.uart_fd, Event.sys_open o] ++
      (if o < 0 then []
       else [Event.sys_write o (disp_bytes (Int.tmod (s2.current_display + 1) 2)) w3]) ∧
    s3.display_label_upper = bytes_of "ERROR: No Response" ∧
    s3.display_label_lower = bytes_of "Check Connection" ∧
    s3.error_counter = 0 ∧ s3.uart_fd = o := by
  have n1 : ¬ w1 < 0 := not_lt.mpr hw1
  have n2 : ¬ w2 < 0 := not_lt.mpr hw2
  have n3 : ¬ w3 < 0 := not_lt.mpr hw3
  have e1 : s1 = { s with
      error_counter := 1
      current_display := Int.tmod (s.current_display + 1) 2
      trace := s.trace ++ [Event.sys_read s.uart_fd r1,
        Event.sys_write s.uart_fd (disp_bytes (Int.tmod (s.current_display + 1) 2)) w1] } := by
    rw [h1, periodic_display_update_nodata s h r1 hr1, hc,
      if_neg (by simp [MAX_ERRORS]), send_display_command_open, if_neg n1]
    · simp
    · exact h
  have hfd1 : 0 ≤ s1.uart_fd := by rw [e1]; exact h
  have e2 : s2 = { s1 with
      error_counter := 2
      current_display := Int.tmod (s1.current_display + 1) 2
      trace := s1.trace ++ [Event.sys_read s.uart_fd r2,
        Event.sys_write s.uart_fd (disp_bytes (Int.tmod (s1.current_display + 1) 2)) w2] } := by
    have hc1 : s1.error_counter = 1 := by rw [e1]
    have hf : s1.uart_fd = s.uart_fd := by rw [e1]
    rw [h2, periodic_display_update_nodata s1 hfd1 r2 hr2, hc1,
      if_neg (by simp [MAX_ERRORS]), send_display_command_open, if_neg n2, hf]
    · simp
    · exact hfd1
  have hfd2 : 0 ≤ s2.uart_fd := by rw [e2]; exact hfd1
  have hc2 : s2.error_counter = 2 := by rw [e2]
  have hf2 : s2.uart_fd = s.uart_fd := by rw [e2, e1]
  have e3 : s3 = send_display_command
      { uart_fd := o, error_counter := 0,
        current_display := Int.tmod (s2.current_display + 1) 2,
        display_label_upper := bytes_of "ERROR: No Response",
        display_label_lower := bytes_of "Check Connection",
        trace := s2.trace ++ [Event.sys_read s.uart_fd r3, Event.sys_close s.uart_fd,
          Event.sys_open o] }
      (Int.tmod (s2.current_display + 1) 2) w3 ob3 := by
    rw [h3, periodic_display_update_nodata s2 hfd2 r3 hr3, hc2,
      if_pos (by simp [MAX_ERRORS]), hf2]
  refine ⟨by rw [e1], by rw [e1], by rw [e2], by rw [e2], ?_⟩
  by_cases ho : o < 0
  · rw [e3, send_display_command_closed _ ho, if_pos ho]
    simp
  · rw [e3, send_display_command_open _ (not_lt.mp ho), if_neg n3, if_neg ho]
    simp

theorem three_silent_cycles_witness :
    (0 : Int) ≤ s_open.uart_fd ∧ s_open.error_counter = 0 ∧
    (periodic_display_update (periodic_display_update (periodic_display_update s_open
        0 [] 9 7 9) (-1) [] 9 7 9) 0 [] 4 7 9).display_label_upper
      = bytes_of "ERROR: No Response" ∧
    (periodic_display_update (periodic_display_update (periodic_display_update s_open
        0 [] 9 7 9) (-1) [] 9 7 9) 0 [] 4 7 9).display_label_lower
      = bytes_of "Check Connection" ∧
    (periodic_display_update (periodic_display_update (periodic_display_update s_open
        0 [] 9 7 9) (-1) [] 9 7 9) 0 [] 4 7 9).error_counter = 0 ∧
    (periodic_display_update (periodic_display_update (periodic_display_update s_open
        0 [] 9 7 9) (-1) [] 9 7 9) 0 [] 4 7 9).uart_fd = 4 :=
  ⟨by decide, by decide,
   (three_silent_cycles s_open _ _ _ (by decide) (by decide) 0 (-1) 0 7 7 7 9 9 9 9 4 9
      [] [] [] (by decide) (by decide) (by decide) (by decide) (by decide) (by decide)
      rfl rfl rfl).2.2.2.2.2⟩

/-- C7 fails as stated: with the link closed a periodic cycle returns before
the toggle, so the slot keeps its value. -/
theorem slot_toggle_counterexample :
    ¬ (∀ (s : State) (r : Int) (data : List Nat) (o1 w o2 : Int),
        (s.current_display = 0 ∨ s.current_display = 1) →
        (periodic_display_update s r data o1 w o2).current_display = 1 - s.current_display) := by
  intro hall
  have h := hall s_closed 0 [] 4 7 4 (Or.inr rfl)
  revert h
  decide

/-- C7 (amended): the slot is toggled exactly once by every periodic cycle that
starts with the link open, whatever the outcomes of that cycle's read, write
and reopen; a cycle that starts with the link closed leaves the slot as it
was. -/
theorem slot_toggle (s : State) (hslot : s.current_display = 0 ∨ s.current_display = 1)
    (r : Int) (data : List Nat) (o1 w o2 : Int) :
    (0 ≤ s.uart_fd →
      (periodic_display_update s r data o1 w o2).current_display = 1 - s.current_display) ∧
    (s.uart_fd < 0 →
      (periodic_display_update s r data o1 w o2).current_display = s.current_display) := by
  constructor
  · intro h
    rw [← tmod_toggle s.current_display hslot]
    by_cases hr : r ≤ 0
    · rw [periodic_display_update_nodata s h r hr]
      split_ifs <;> rw [(send_display_command_labels _ _ _ _).2.2]
    · rw [periodic_display_update_data s h r (not_le.mp hr),
        (send_display_command_labels _ _ _ _).2.2]
  · intro h
    rw [periodic_display_update_closed s h]

theorem slot_toggle_witness :
    (s_open.current_display = 0 ∨ s_open.current_display = 1) ∧
    (0 : Int) ≤ s_open.uart_fd ∧
    (periodic_display_update s_open (-1) [] 4 (-1) 4).current_display =
      1 - s_open.current_display ∧
    (periodic_display_update (periodic_display_update s_open (-1) [] 4 (-1) 4) 2 [65, 10] 4 7
      4).current_display = 1 - (periodic_display_update s_open (-1) [] 4 (-1) 4).current_display ∧
    s_closed.uart_fd < 0 ∧
    (periodic_display_update s_closed 2 [65, 10] 4 7 4).current_display =
      s_closed.current_display :=
  ⟨Or.inl rfl, by decide,
   (slot_toggle s_open (Or.inl rfl) (-1) [] 4 (-1) 4).1 (by decide),
   (slot_toggle (periodic_display_update s_open (-1) [] 4 (-1) 4) (by decide) 2 [65, 10] 4 7
      4).1 (by decide),
   by decide,
   (slot_toggle s_closed (Or.inr rfl) 2 [65, 10] 4 7 4).2 (by decide)⟩

/-- C9 fails as stated: a read returning 0 is counted.  One cycle whose read
returns 0 raises the counter from 0 to 1, and three such cycles in a row show
the error status and reopen the link. -/
theorem zero_read_counterexample :
    (periodic_display_update s_open 0 [] 4 7 4).error_counter = 1 ∧
    (run s_open [Op.tick 0 [] 4 7 4, Op.tick 0 [] 4 7 4, Op.tick 0 [] 4 7 4]).display_label_upper
      = bytes_of "ERROR: No Response" ∧
    (run s_open [Op.tick 0 [] 4 7 4, Op.tick 0 [] 4 7 4, Op.tick 0 [] 4 7 4]).trace =
      [Event.sys_read 3 0, Event.sys_write 3 (bytes_of "DISP 1\r") 7,
       Event.sys_read 3 0, Event.sys_write 3 (bytes_of "DISP 0\r") 7,
       Event.sys_read 3 0, Event.sys_close 3, Event.sys_open 4,
       Event.sys_write 4 (bytes_of "DISP 1\r") 7] := by
  decide

/-- C9 (amended): a read that returns zero bytes is handled exactly like a
failed read.  Take any state with an open link whose counter is an `int` below
`INT_MAX`, so that `error_counter++` does not overflow (every state the program
reaches has a counter in `0..2`), and any outcomes of the cycle's write and
opens.  A periodic cycle whose read returns 0 counts one failure before its
display-select command is sent.  Below `MAX_ERRORS` the labels are untouched
and the closing `send_display_command` runs on the incremented counter: a
successful write leaves it there, a failed write counts a second failure and,
if that one reaches `MAX_ERRORS`, closes and reopens without touching the
labels.  At `MAX_ERRORS` the cycle shows the error status, closes the
descriptor, attempts one open and resets the counter, after which the
display-select command goes to the new descriptor if the open succeeded (a
failure of that write being counted as 1).  Apart from the return value
recorded in the trace, the resulting state is the one a cycle with a negative
read result produces. -/
theorem zero_read_counts_as_failure (s : State) (h : 0 ≤ s.uart_fd)
    (hmin : INT_MIN ≤ s.error_counter) (hmax : s.error_counter < INT_MAX)
    (data data2 : List Nat) (o1 w o2 rneg : Int) (hneg : rneg < 0) :
    (INT_MIN ≤ s.error_counter + 1 ∧ s.error_counter + 1 ≤ INT_MAX) ∧
    (s.error_counter + 1 < MAX_ERRORS →
      (periodic_display_update s 0 data o1 w o2).display_label_upper =
        s.display_label_upper ∧
      (periodic_display_update s 0 data o1 w o2).display_label_lower =
        s.display_label_lower ∧
      (0 ≤ w →
        (periodic_display_update s 0 data o1 w o2).error_counter = s.error_counter + 1 ∧
        (periodic_display_update s 0 data o1 w o2).uart_fd = s.uart_fd ∧
        (periodic_display_update s 0 data o1 w o2).trace =
          s.trace ++ [Event.sys_read s.uart_fd 0,
            Event.sys_write s.uart_fd (disp_bytes (Int.tmod (s.current_display + 1) 2)) w]) ∧
      (w < 0 → s.error_counter + 2 < MAX_ERRORS →
        (periodic_display_update s 0 data o1 w o2).error_counter = s.error_counter + 2 ∧
        (periodic_display_update s 0 data o1 w o2).uart_fd = s.uart_fd ∧
        (periodic_display_update s 0 data o1 w o2).trace =
          s.trace ++ [Event.sys_read s.uart_fd 0,
            Event.sys_write s.uart_fd (disp_bytes (Int.tmod (s.current_display + 1) 2)) w]) ∧
      (w < 0 → s.error_counter + 2 ≥ MAX_ERRORS →
        (periodic_display_update s 0 data o1 w o2).error_counter = 0 ∧
        (periodic_display_update s 0 data o1 w o2).uart_fd = o2 ∧
        (periodic_display_update s 0 data o1 w o2).trace =
          s.trace ++ [Event.sys_read s.uart_fd 0,
            Event.sys_write s.uart_fd (disp_bytes (Int.tmod (s.current_display + 1) 2)) w,
            Event.sys_close s.uart_fd, Event.sys_open o2])) ∧
    (s.error_counter + 1 ≥ MAX_ERRORS →
      (periodic_display_update s 0 data o1 w o2).display_label_upper =
        bytes_of "ERROR: No Response" ∧
      (periodic_display_update s 0 data o1 w o2).display_label_lower =
        bytes_of "Check Connection" ∧
      (periodic_display_update s 0 data o1 w o2).uart_fd = o1 ∧
      (periodic_display_update s 0 data o1 w o2).error_counter =
        (if 0 ≤ o1 ∧ w < 0 then 1 else 0) ∧
      (periodic_display_update s 0 data o1 w o2).trace =
        s.trace ++ [Event.sys_read s.uart_fd 0, Event.sys_close s.uart_fd, Event.sys_open o1] ++
        (if o1 < 0 then []
         else [Event.sys_write o1 (disp_bytes (Int.tmod (s.current_display + 1) 2)) w])) ∧
    { periodic_display_update s 0 data o1 w o2 with trace := [] } =
      { periodic_display_update s rneg data2 o1 w o2 with trace := [] } := by
  refine ⟨?_, ?_, ?_, ?_⟩
  · simp only [INT_MIN, INT_MAX] at hmin hmax ⊢
    omega
  · intro hlt
    have hnge : ¬ s.error_counter + 1 ≥ MAX_ERRORS := not_le.mpr hlt
    rw [periodic_display_update_nodata s h 0 le_rfl, if_neg hnge]
    refine ⟨?_, ?_, ?_, ?_, ?_⟩
    · rw [(send_display_command_labels _ _ _ _).1]
    · rw [(send_display_command_labels _ _ _ _).2.1]
    · intro hw
      rw [send_display_command_open, if_neg (not_lt.mpr hw)]
      · simp
      · exact h
    · intro hw hlt2
      have hn2 : ¬ s.error_counter + 1 + 1 ≥ MAX_ERRORS := by
        simp only [MAX_ERRORS] at hlt2 ⊢
        omega
      rw [send_display_command_open, if_pos hw]
      · split_ifs with hc
        · exact absurd hc hn2
        · refine ⟨?_, rfl, ?_⟩
          · show s.error_counter + 1 + 1 = s.error_counter + 2
            omega
          · simp
      · exact h
    · intro hw hge2
      have hp2 : s.error_counter + 1 + 1 ≥ MAX_ERRORS := by
        simp only [MAX_ERRORS] at hge2 ⊢
        omega
      rw [send_display_command_open, if_pos hw]
      · split_ifs with hc
        · simp
        · exact absurd hp2 hc
      · exact h
  · intro hge
    rw [periodic_display_update_nodata s h 0 le_rfl, if_pos hge]
    by_cases ho : o1 < 0
    · have hno : ¬ (0 ≤ o1 ∧ w < 0) := fun hc => absurd hc.1 (not_le.mpr ho)
      rw [send_display_command_closed _ ho, if_pos ho, if_neg hno]
      simp
    · by_cases hw : w < 0
      · have hyes : 0 ≤ o1 ∧ w < 0 := ⟨not_lt.mp ho, hw⟩
        rw [send_display_command_open _ (not_lt.mp ho), if_pos hw, if_neg ho, if_pos hyes]
        simp [MAX_ERRORS]
      · have hno : ¬ (0 ≤ o1 ∧ w < 0) := fun hc => hw hc.2
        rw [send_display_command_open _ (not_lt.mp ho), if_neg hw, if_neg ho, if_neg hno]
        simp
  · rw [periodic_display_update_nodata s h 0 le_rfl,
      periodic_display_update_nodata s h rneg (le_of_lt hneg)]
    split_ifs
    · rw [← send_display_command_forgets_trace _ [], ← send_display_command_forgets_trace
        { uart_fd := o1, error_counter := 0,
          current_display := Int.tmod (s.current_display + 1) 2,
          display_label_upper := bytes_of "ERROR: No Response",
          display_label_lower := bytes_of "Check Connection",
          trace := s.trace ++ [Event.sys_read s.uart_fd rneg, Event.sys_close s.uart_fd,
            Event.sys_open o1] } []]
    · rw [← send_display_command_forgets_trace _ [], ← send_display_command_forgets_trace
        { s with error_counter := s.error_counter + 1,
                 current_display := Int.tmod (s.current_display + 1) 2,
                 trace := s.trace ++ [Event.sys_read s.uart_fd rneg] } []]

theorem zero_read_counts_as_failure_witness :
    (0 : Int) ≤ s_open.uart_fd ∧ INT_MIN ≤ s_open.error_counter ∧
    s_open.error_counter < INT_MAX ∧
    (periodic_display_update s_open 0 [] 4 7 4).error_counter = s_open.error_counter + 1 ∧
    (periodic_display_update s_open 0 [] 4 (-1) 4).error_counter = s_open.error_counter + 2 ∧
    { periodic_display_update s_open 0 [] 4 (-1) 4 with trace := [] } =
      { periodic_display_update s_open (-1) [65] 4 (-1) 4 with trace := [] } ∧
    (periodic_display_update (periodic_display_update s_open 0 [] 4 7 4) 0 [] 4 (-1)
      9).trace =
      (periodic_display_update s_open 0 [] 4 7 4).trace ++
        [Event.sys_read (periodic_display_update s_open 0 [] 4 7 4).uart_fd 0,
         Event.sys_write (periodic_display_update s_open 0 [] 4 7 4).uart_fd
           (disp_bytes (Int.tmod
             ((periodic_display_update s_open 0 [] 4 7 4).current_display + 1) 2)) (-1),
         Event.sys_close (periodic_display_update s_open 0 [] 4 7 4).uart_fd,
         Event.sys_open 9] ∧
    (periodic_display_update
      (periodic_display_update (periodic_display_update s_open 0 [] 4 7 4) 0 [] 4 7 4)
      0 [] 4 (-1) 4).display_label_upper = bytes_of "ERROR: No Response" ∧
    (periodic_display_update
      (periodic_display_update (periodic_display_update s_open 0 [] 4 7 4) 0 [] 4 7 4)
      0 [] 4 (-1) 4).error_counter = (if (0 : Int) ≤ 4 ∧ (-1 : Int) < 0 then 1 else 0) :=
  ⟨by decide, by decide, by decide,
   (((zero_read_counts_as_failure s_open (by decide) (by decide) (by decide) [] [65] 4 7 4
      (-1) (by decide)).2.1 (by decide)).2.2.1 (by decide)).1,
   (((zero_read_counts_as_failure s_open (by decide) (by decide) (by decide) [] [65] 4 (-1) 4
      (-1) (by decide)).2.1 (by decide)).2.2.2.1 (by decide) (by decide)).1,
   (zero_read_counts_as_failure s_open (by decide) (by decide) (by decide) [] [65] 4 (-1) 4
      (-1) (by decide)).2.2.2,
   (((zero_read_counts_as_failure (periodic_display_update s_open 0 [] 4 7 4)
      (by decide) (by decide) (by decide) [] [65] 4 (-1) 9
      (-1) (by decide)).2.1 (by decide)).2.2.2.2 (by decide) (by decide)).2.2,
   ((zero_read_counts_as_failure
      (periodic_display_update (periodic_display_update s_open 0 [] 4 7 4) 0 [] 4 7 4)
      (by decide) (by decide) (by decide) [] [65] 4 (-1) 4 (-1) (by decide)).2.2.1
      (by decide)).1,
   ((zero_read_counts_as_failure
      (periodic_display_update (periodic_display_update s_open 0 [] 4 7 4) 0 [] 4 7 4)
      (by decide) (by decide) (by decide) [] [65] 4 (-1) 4 (-1) (by decide)).2.2.1
      (by decide)).2.2.2.1⟩

/-- C3 fails as stated: two failed key writes, one successful key write and a
third failed key write make the fourth call close and reopen the link, although
the failure it counted is the first since a successful write.  The resulting
trace is rejected by the monitor that follows the spec's words. -/
theorem reopen_consecutive_counterexample :
    (run s_open [Op.key 0 (-1) 4, Op.key 0 (-1) 4, Op.key 0 11 4, Op.key 0 (-1) 4]).trace =
      [Event.sys_write 3 (bytes_of "KEY 0 1000\r") (-1),
       Event.sys_write 3 (bytes_of "KEY 0 1000\r") (-1),
       Event.sys_write 3 (bytes_of "KEY 0 1000\r") 11,
       Event.sys_write 3 (bytes_of "KEY 0 1000\r") (-1),
       Event.sys_close 3, Event.sys_open 4] ∧
    (run s_open [Op.key 0 (-1) 4, Op.key 0 (-1) 4, Op.key 0 11 4, Op.key 0 (-1) 4]).trace.foldl
      spec_monitor (Phase.counting 0) = Phase.violated := by
  decide

/-- C3 (amended): a reopen is triggered by exactly the third counted failure,
never sooner, never later, where a failure is a write returning a negative
value or a read returning no byte or a negative value, and the count restarts
only at the start, after a reopen, or after a read that returned data (a
successful write does not restart it).  In every execution that starts with
counter 0 and an empty trace, over any interleaving of `send_key_command`,
`send_display_command` and periodic cycles with arbitrary outcomes, the trace
is accepted by `counted_monitor`: close and open occur only as the pair that
immediately follows the third counted failure, and that pair always follows
it; moreover `error_counter` equals the monitor's count and stays below 3. -/
theorem reopen_at_third_counted_failure (s0 : State) (hc : s0.error_counter = 0)
    (ht : s0.trace = []) (ops : List Op) :
    ∃ c : Nat, c < 3 ∧
      (run s0 ops).trace.foldl counted_monitor (Phase.counting 0) = Phase.counting c ∧
      (run s0 ops).error_counter = c :=
  counted_run ops s0 ⟨0, by decide, by rw [ht]; rfl, by rw [hc]; rfl⟩

theorem reopen_at_third_counted_failure_witness :
    s_open.error_counter = 0 ∧ s_open.trace = [] ∧
    ∃ c : Nat, c < 3 ∧
      (run s_open [Op.key 0 (-1) 4, Op.key 0 (-1) 4, Op.key 0 11 4, Op.key 0 (-1) 4]).trace.foldl
        counted_monitor (Phase.counting 0) = Phase.counting c ∧
      (run s_open [Op.key 0 (-1) 4, Op.key 0 (-1) 4, Op.key 0 11 4, Op.key 0 (-1) 4]).error_counter
        = c :=
  ⟨rfl, rfl, reopen_at_third_counted_failure s_open rfl rfl _⟩

/-- C5 fails as stated: for the three received bytes newline, `B`, newline the
first line of the text is empty and the second line is `B`, yet the code puts
`B` into the upper label and leaves the lower label as it was (`strtok` skips
empty lines).  Likewise a NUL byte inside the first line ends the decoding:
for `A`, NUL, `B`, newline, `C`, newline the code shows `A` and keeps the
lower label, where the text has the second line `C`. -/
theorem response_decoding_counterexample :
    ¬ (∀ (s : State) (data : List Nat) (o1 w o2 : Int),
        0 ≤ s.uart_fd → 1 ≤ data.length → data.length ≤ 255 →
        ((periodic_display_update s data.length data o1 w o2).display_label_upper,
         (periodic_display_update s data.length data o1 w o2).display_label_lower) =
          spec_decode s.display_label_upper s.display_label_lower data) ∧
    (periodic_display_update s_open 3 [10, 66, 10] 4 7 4).display_label_upper = [66] ∧
    (periodic_display_update s_open 3 [10, 66, 10] 4 7 4).display_label_lower =
      s_open.display_label_lower ∧
    spec_decode s_open.display_label_upper s_open.display_label_lower [10, 66, 10] =
      ([], [66]) ∧
    (periodic_display_update s_open 6 [65, 0, 66, 10, 67, 10] 4 7 4).display_label_upper
      = [65] ∧
    (periodic_display_update s_open 6 [65, 0, 66, 10, 67, 10] 4 7 4).display_label_lower =
      s_open.display_label_lower ∧
    spec_decode s_open.display_label_upper s_open.display_label_lower
      [65, 0, 66, 10, 67, 10] = ([65, 0, 66], [67]) := by
  refine ⟨?_, by decide, by decide, by decide, by decide, by decide, by decide⟩
  intro hall
  have h := hall s_open [10, 66, 10] 4 7 4 (by decide) (by decide) (by decide)
  revert h
  decide

/-- C5 (amended): response decoding.  For every received buffer of at least one
byte that holds no NUL byte and whose first two lines (as far as present) are
not empty, treated as newline-delimited text, the first line becomes the upper
label and the second line, if present, becomes the lower label; when there is
no second line the lower label keeps its prior value.  In particular, for
non-empty `l1`, `l2` free of newline and NUL, the buffer `l1`, newline, `l2`,
newline gives upper `l1` and lower `l2`, and the buffer `l1`, newline gives
upper `l1` with the lower label unchanged. -/
theorem response_decoding (s : State) (h : 0 ≤ s.uart_fd) (o1 w o2 : Int)
    (data l1 l2 : List Nat) (hlen : 1 ≤ data.length)
    (hnul : ∀ c ∈ data, c ≠ 0) (hne : ∀ l ∈ (spec_lines data).take 2, l ≠ [])
    (hl1 : l1 ≠ []) (hl2 : l2 ≠ [])
    (hc1 : ∀ c ∈ l1, c ≠ 10 ∧ c ≠ 0) (hc2 : ∀ c ∈ l2, c ≠ 10 ∧ c ≠ 0) :
    ((periodic_display_update s data.length data o1 w o2).display_label_upper,
     (periodic_display_update s data.length data o1 w o2).display_label_lower) =
      spec_decode s.display_label_upper s.display_label_lower data ∧
    ((periodic_display_update s (l1 ++ [10] ++ l2 ++ [10]).length (l1 ++ [10] ++ l2 ++ [10])
        o1 w o2).display_label_upper = l1 ∧
     (periodic_display_update s (l1 ++ [10] ++ l2 ++ [10]).length (l1 ++ [10] ++ l2 ++ [10])
        o1 w o2).display_label_lower = l2) ∧
    ((periodic_display_update s (l1 ++ [10]).length (l1 ++ [10]) o1 w o2).display_label_upper
        = l1 ∧
     (periodic_display_update s (l1 ++ [10]).length (l1 ++ [10]) o1 w o2).display_label_lower
        = s.display_label_lower) := by
  have hpos : data ≠ [] := by
    intro hnil
    rw [hnil] at hlen
    exact absurd hlen (by decide)
  have nn1 : ∀ c ∈ l1, c ≠ 10 := fun c hc => (hc1 c hc).1
  have nn2 : ∀ c ∈ l2, c ≠ 10 := fun c hc => (hc2 c hc).1
  refine ⟨?_, ?_, ?_⟩
  · obtain ⟨hu, hl⟩ := periodic_display_update_labels s h data hpos o1 w o2
    rw [hu, hl]
    exact decoded_eq_spec data _ _ hpos hnul hne
  · have hposb : l1 ++ [10] ++ l2 ++ [10] ≠ [] := by simp
    have hnulb : ∀ c ∈ l1 ++ [10] ++ l2 ++ [10], c ≠ 0 := by
      intro c hc
      simp only [List.mem_append, List.mem_singleton] at hc
      rcases hc with ((hc | hc) | hc) | hc
      · exact (hc1 c hc).2
      · rw [hc]; decide
      · exact (hc2 c hc).2
      · rw [hc]; decide
    have hlines : spec_lines (l1 ++ [10] ++ l2 ++ [10]) = [l1, l2] := by
      have e : l1 ++ [10] ++ l2 ++ [10] = l1 ++ 10 :: (l2 ++ 10 :: []) := by simp
      rw [e, spec_lines_line l1 _ nn1, spec_lines_line l2 _ nn2]
      rfl
    have hneb : ∀ l ∈ (spec_lines (l1 ++ [10] ++ l2 ++ [10])).take 2, l ≠ [] := by
      rw [hlines]
      intro l hl
      simp only [List.take, List.mem_cons, List.mem_singleton] at hl
      rcases hl with hl | hl | hl
      · rw [hl]; exact hl1
      · rw [hl]; exact hl2
      · exact absurd hl (List.not_mem_nil l)
    obtain ⟨hu, hl⟩ := periodic_display_update_labels s h _ hposb o1 w o2
    have hd := decoded_eq_spec _ s.display_label_upper s.display_label_lower hposb hnulb hneb
    rw [spec_decode, hlines] at hd
    rw [hu, hl]
    exact ⟨congrArg Prod.fst hd, congrArg Prod.snd hd⟩
  · have hposb : l1 ++ [10] ≠ [] := by simp
    have hnulb : ∀ c ∈ l1 ++ [10], c ≠ 0 := by
      intro c hc
      simp only [List.mem_append, List.mem_singleton] at hc
      rcases hc with hc | hc
      · exact (hc1 c hc).2
      · rw [hc]; decide
    have hlines : spec_lines (l1 ++ [10]) = [l1] := by
      have e : l1 ++ [10] = l1 ++ 10 :: [] := rfl
      rw [e, spec_lines_line l1 _ nn1]
      rfl
    have hneb : ∀ l ∈ (spec_lines (l1 ++ [10])).take 2, l ≠ [] := by
      rw [hlines]
      intro l hl
      simp only [List.take, List.mem_cons, List.mem_singleton] at hl
      rcases hl with hl | hl
      · rw [hl]; exact hl1
      · exact absurd hl (List.not_mem_nil l)
    obtain ⟨hu, hl⟩ := periodic_display_update_labels s h _ hposb o1 w o2
    have hd := decoded_eq_spec _ s.display_label_upper s.display_label_lower hposb hnulb hneb
    rw [spec_decode, hlines] at hd
    rw [hu, hl]
    exact ⟨congrArg Prod.fst hd, congrArg Prod.snd hd⟩

theorem response_decoding_witness :
    (0 : Int) ≤ s_open.uart_fd ∧
    (periodic_display_update s_open (bytes_of "Line A" ++ [10] ++ bytes_of "Line B" ++ [10]).length
        (bytes_of "Line A" ++ [10] ++ bytes_of "Line B" ++ [10]) 4 7 4).display_label_upper
      = bytes_of "Line A" ∧
    (periodic_display_update s_open (bytes_of "Line A" ++ [10] ++ bytes_of "Line B" ++ [10]).length
        (bytes_of "Line A" ++ [10] ++ bytes_of "Line B" ++ [10]) 4 7 4).display_label_lower
      = bytes_of "Line B" ∧
    (periodic_display_update s_open (bytes_of "OnlyUpper" ++ [10]).length
        (bytes_of "OnlyUpper" ++ [10]) 4 7 4).display_label_upper = bytes_of "OnlyUpper" ∧
    (periodic_display_update s_open (bytes_of "OnlyUpper" ++ [10]).length
        (bytes_of "OnlyUpper" ++ [10]) 4 7 4).display_label_lower = s_open.display_label_lower :=
  ⟨by decide,
   (response_decoding s_open (by decide) 4 7 4 (bytes_of "A\nB") (bytes_of "Line A")
      (bytes_of "Line B") (by decide) (by decide) (by decide) (by decide) (by decide)
      (by decide) (by decide)).2.1.1,
   (response_decoding s_open (by decide) 4 7 4 (bytes_of "A\nB") (bytes_of "Line A")
      (bytes_of "Line B") (by decide) (by decide) (by decide) (by decide) (by decide)
      (by decide) (by decide)).2.1.2,
   (response_decoding s_open (by decide) 4 7 4 (bytes_of "A\nB") (bytes_of "OnlyUpper")
      (bytes_of "Line B") (by decide) (by decide) (by decide) (by decide) (by decide)
      (by decide) (by decide)).2.2.1,
   (response_decoding s_open (by decide) 4 7 4 (bytes_of "A\nB") (bytes_of "OnlyUpper")
      (bytes_of "Line B") (by decide) (by decide) (by decide) (by decide) (by decide)
      (by decide) (by decide)).2.2.2⟩

end Uart
